import Mathlib

/-!
Verification development for the servertech-chat service.

The repository snapshot holds the integration tests and API type
declarations (Python, under `test/integration`); the server core itself
(Message Log Store, Broadcast Hub, Protocol State Machine, Room Registry,
HTTP auth layer) is not present in the snapshot.  Definitions embedding
the API type declarations are translated from `test/integration/api_types.py`;
definitions for the missing server core are modelled from the
specification, each marked `Modelled from the spec:` in its doc comment.
-/

namespace Chat

/-- User, embedded from `test/integration/api_types.py` (`class User`):
`id: int`, `username: str`.  Note the declared type of `id` is `int`,
not `str`. -/
structure User where
  id : Int
  username : String
deriving DecidableEq, Repr

/-- Composite message ordinal `(epoch_ms, sequence)`.
Modelled from the spec: `id` is a two-part composite ordinal
`(epoch_ms, sequence)`; the wire rendering is the string
`"<epoch_ms>-<sequence>"` (the Redis stream ID pattern
`[0-9]+-[0-9]+` declared in `api_types.py`). -/
structure MessageId where
  epochMs : Nat
  seq : Nat
deriving DecidableEq, Repr

/-- The total order on composite IDs: compare `epoch_ms` numerically,
then `sequence` numerically on ties (spec section 3). -/
def MessageId.Lt (a b : MessageId) : Prop :=
  a.epochMs < b.epochMs ∨ (a.epochMs = b.epochMs ∧ a.seq < b.seq)

instance (a b : MessageId) : Decidable (a.Lt b) :=
  inferInstanceAs (Decidable (_ ∨ _))

/-- Wire rendering of a composite ID as `"<epoch_ms>-<sequence>"`. -/
def MessageId.render (i : MessageId) : String :=
  toString i.epochMs ++ "-" ++ toString i.seq

/-- Message, per the wire shape of `api_types.py` (`class ServerMessage`):
`{id, timestamp, content, user}`.  The composite ID is kept structured
here; `Message.toJson` renders it as the `"<digits>-<digits>"` string. -/
structure Message where
  id : MessageId
  timestamp : Nat
  content : String
  author : User
deriving DecidableEq, Repr

/-- Modelled from the spec: the Message Log Store keeps a per-room,
append-only sequence of messages; here, a map from room id to its log
in append order (oldest first). -/
def Store : Type := String → List Message

/-- A fresh store: every room's log is empty. -/
def Store.empty : Store := fun _ => []

/-- The log of one room, in append order. -/
def Store.log (s : Store) (roomId : String) : List Message := s roomId

/-- Replace one room's log, leaving the others untouched. -/
def Store.setLog (s : Store) (roomId : String) (log : List Message) : Store :=
  fun r => if r = roomId then log else s r

/-- Modelled from the spec: the sequence component assigned by `append` -
"if the room's log already has a message with that same `epoch_ms`, the
`sequence` is the previous sequence + 1, else `sequence = 0`". -/
def nextSeq (log : List Message) (now : Nat) : Nat :=
  match (log.filter (fun m => m.id.epochMs == now)).getLast? with
  | some m => m.id.seq + 1
  | none => 0

/-- Modelled from the spec:
`append(roomId, author, content) -> Message` assigns the current
wall-clock millisecond `now` as `epoch_ms` (and as the message
timestamp), computes the sequence with `nextSeq`, and appends the new
message to the room's log. -/
def Store.append (s : Store) (now : Nat) (roomId : String) (author : User)
    (content : String) : Store × Message :=
  let log := s.log roomId
  let msg : Message :=
    { id := ⟨now, nextSeq log now⟩, timestamp := now,
      content := content, author := author }
  (s.setLog roomId (log ++ [msg]), msg)

/-- A bounded read view of a room's history (spec section 3):
most-recent first, plus a has-more flag. -/
structure RoomHistoryPage where
  messages : List Message
  hasMoreMessages : Bool
deriving DecidableEq, Repr

/-- Modelled from the spec:
`recent(roomId, limit) -> RoomHistoryPage` returns up to `limit`
most-recent messages in descending ID order (newest first), and
`hasMoreMessages = true` iff the room holds more than `limit` messages
in total. -/
def Store.recent (s : Store) (roomId : String) (limit : Nat) : RoomHistoryPage :=
  let log := s.log roomId
  { messages := log.reverse.take limit,
    hasMoreMessages := decide (limit < log.length) }

/-- A room log is well formed when its IDs strictly increase in append
order under the composite order. -/
def SortedLog (log : List Message) : Prop :=
  log.Pairwise fun a b => a.id.Lt b.id

instance (log : List Message) : Decidable (SortedLog log) := by
  unfold SortedLog
  infer_instance

/- Helper lemmas about `append`. -/

theorem log_setLog_self (s : Store) (roomId : String) (log : List Message) :
    (s.setLog roomId log).log roomId = log := by
  simp [Store.log, Store.setLog]

theorem append_fst_log (s : Store) (now : Nat) (roomId : String) (author : User)
    (content : String) :
    ((s.append now roomId author content).fst).log roomId
      = s.log roomId ++ [(s.append now roomId author content).snd] := by
  simp [Store.append, log_setLog_self]

theorem append_snd_id (s : Store) (now : Nat) (roomId : String) (author : User)
    (content : String) :
    (s.append now roomId author content).snd.id
      = ⟨now, nextSeq (s.log roomId) now⟩ := by
  simp [Store.append]

theorem nextSeq_concat_same (log : List Message) (m : Message) (now : Nat)
    (h : m.id.epochMs = now) :
    nextSeq (log ++ [m]) now = m.id.seq + 1 := by
  unfold nextSeq
  rw [List.filter_append]
  have hm : (List.filter (fun x => x.id.epochMs == now) [m]) = [m] := by
    simp [List.filter, h]
  rw [hm, List.getLast?_concat]

theorem append_id_lt (s : Store) (roomId : String) (a1 a2 : User)
    (c1 c2 : String) (now1 now2 : Nat) (hclock : now1 ≤ now2) :
    ((s.append now1 roomId a1 c1).snd.id).Lt
      ((s.append now1 roomId a1 c1).fst.append now2 roomId a2 c2).snd.id := by
  rcases Nat.lt_or_ge now1 now2 with hlt | hge
  · rw [append_snd_id, append_snd_id]
    exact Or.inl hlt
  · have heq : now2 = now1 := Nat.le_antisymm (Nat.le_of_not_lt (by omega)) hclock
    subst heq
    rw [append_snd_id, append_snd_id, append_fst_log]
    rw [nextSeq_concat_same _ _ _ (by rw [append_snd_id])]
    right
    refine ⟨rfl, ?_⟩
    rw [append_snd_id]
    exact Nat.lt_succ_self _

/-! ## JSON values and serialization

The integration tests exchange JSON bodies validated by the pydantic
models of `test/integration/api_types.py`; we embed a JSON value type
and the serialization (`model_dump_json`) of those models.  Field order
follows the declaration order of the pydantic classes. -/

/-- A JSON value. -/
inductive Json where
  | str (s : String)
  | num (n : Int)
  | bool (b : Bool)
  | null
  | arr (elems : List Json)
  | obj (fields : List (String × Json))

mutual

/-- Compact JSON rendering (the serialized payload bytes). -/
def Json.render : Json → String
  | .str s => "\"" ++ s ++ "\""
  | .num n => toString n
  | .bool b => if b then "true" else "false"
  | .null => "null"
  | .arr es => "[" ++ Json.renderSeq es ++ "]"
  | .obj fs => "\x7b" ++ Json.renderFields fs ++ "\x7d"

def Json.renderSeq : List Json → String
  | [] => ""
  | [e] => e.render
  | e :: es => e.render ++ "," ++ Json.renderSeq es

def Json.renderFields : List (String × Json) → String
  | [] => ""
  | [(k, v)] => "\"" ++ k ++ "\":" ++ v.render
  | (k, v) :: fs => "\"" ++ k ++ "\":" ++ v.render ++ "," ++ Json.renderFields fs

end

/-- Look up a field of a JSON object (first occurrence). -/
def Json.field (j : Json) (key : String) : Option Json :=
  match j with
  | .obj fs => (fs.find? (fun p => p.fst == key)).map (fun p => p.snd)
  | _ => none

/-- Embedded from `api_types.py` `class User`: pydantic serializes the
`int` field `id` as a JSON number and `username` as a JSON string. -/
def User.toJson (u : User) : Json :=
  .obj [("id", .num u.id), ("username", .str u.username)]

/-- Embedded from `api_types.py` `class ServerMessage`: field order
`id, timestamp, content, user`; `id` is the rendered composite ordinal. -/
def Message.toJson (m : Message) : Json :=
  .obj [("id", .str m.id.render), ("timestamp", .num m.timestamp),
        ("content", .str m.content), ("user", m.author.toJson)]

/-- One room entry of a hello payload, embedded from `api_types.py`
`class Room`: `id, name, messages, hasMoreMessages`. -/
structure RoomView where
  id : String
  name : String
  messages : List Message
  hasMoreMessages : Bool
deriving DecidableEq, Repr

/-- Serialization of a hello-payload room entry. -/
def RoomView.toJson (r : RoomView) : Json :=
  .obj [("id", .str r.id), ("name", .str r.name),
        ("messages", .arr (r.messages.map Message.toJson)),
        ("hasMoreMessages", .bool r.hasMoreMessages)]

/-- The websocket events the server emits, per `api_types.py`
(`HelloEvent` and `ServerMessagesEvent`). -/
inductive Event where
  | hello (me : User) (rooms : List RoomView)
  | serverMessages (roomId : String) (messages : List Message)
deriving DecidableEq, Repr

/-- Serialization of a server event, embedded from `api_types.py`:
the envelope is `{type, payload}`; the hello payload is `{me, rooms}`,
the serverMessages payload is `{roomId, messages}`. -/
def Event.toJson : Event → Json
  | .hello me rooms =>
      .obj [("type", .str "hello"),
            ("payload", .obj [("me", me.toJson),
                              ("rooms", .arr (rooms.map RoomView.toJson))])]
  | .serverMessages roomId msgs =>
      .obj [("type", .str "serverMessages"),
            ("payload", .obj [("roomId", .str roomId),
                              ("messages", .arr (msgs.map Message.toJson))])]

/-! ## Broadcast Hub -/

/-- Modelled from the spec: a ConnectionSession owns its user identity,
the set of room ids it is subscribed to, and an outbound delivery
queue. -/
structure Session where
  sid : String
  user : User
  subs : List String
  queue : List Event
deriving DecidableEq, Repr

/-- Modelled from the spec: the Broadcast Hub maintains the set of
currently active sessions with their subscriptions. -/
structure Hub where
  sessions : List Session
deriving DecidableEq, Repr

/-- Modelled from the spec: `publish(roomId, message)` delivers the
batch, as one `serverMessages` event, to the outbound queue of every
session currently subscribed to `roomId`, the originating session
included (no session is excluded). -/
def Hub.publish (h : Hub) (roomId : String) (msgs : List Message) : Hub :=
  ⟨h.sessions.map fun s =>
    if roomId ∈ s.subs then
      { s with queue := s.queue ++ [Event.serverMessages roomId msgs] }
    else s⟩

/-- Modelled from the spec: while ACTIVE, for each inbound
`{content}` item the session calls `append` on the Message Log Store;
the batch of resulting messages is collected in order. -/
def appendBatch (s : Store) (now : Nat) (roomId : String) (author : User) :
    List String → Store × List Message
  | [] => (s, [])
  | c :: cs =>
      let r1 := s.append now roomId author c
      let r2 := appendBatch r1.fst now roomId author cs
      (r2.fst, r1.snd :: r2.snd)

/-- Modelled from the spec: handling one inbound `clientMessages` event
in the ACTIVE state - append every item to the Message Log Store, then
publish the resulting batch to the Broadcast Hub for that room. -/
def handleClientMessages (store : Store) (hub : Hub) (now : Nat)
    (author : User) (roomId : String) (contents : List String) :
    Store × Hub × List Message :=
  let r := appendBatch store now roomId author contents
  (r.fst, hub.publish roomId r.snd, r.snd)

/-! ## Room Registry and protocol state machine -/

/-- Modelled from the spec: the Room Registry is a static catalog fixed
at process start; its entries and their insertion order are pinned by
the test contracts (`test_hello`): beast, async, db, wasm. -/
def roomRegistry : List (String × String) :=
  [("beast", "Boost.Beast"), ("async", "Boost.Async"),
   ("db", "Database connectors"), ("wasm", "Web assembly")]

/-- Protocol states of a connection (spec section 4.3). -/
inductive ConnState where
  | connecting
  | authenticated
  | active
  | closed
deriving DecidableEq, Repr

/-- An account of the external auth/account layer (fields per
`CreateAccountRequest` of `api_types.py` plus the numeric user id). -/
structure Account where
  id : Int
  username : String
  email : String
  password : String
deriving DecidableEq, Repr

/-- Modelled from the spec: the state of the external auth/account
layer - the accounts, the issued sessions (session id to account id),
and a counter for minting fresh opaque session identifiers. -/
structure AuthDb where
  accounts : List Account
  sessions : List (String × Int)
  nextSidIdx : Nat

/-- Modelled from the spec: opaque session identifiers; modelled as an
injective fresh-identifier generator (the k-th identifier issued is a
non-empty string determined by k). -/
def mintSid (k : Nat) : String :=
  String.mk (List.replicate (k + 1) 's')

/-- Modelled from the spec: the external collaborator contract
`authenticate(sessionToken) -> {userId, username} | Failure` - resolve
the session id to its account and return that account's identity. -/
def authenticate (db : AuthDb) (sid : String) : Option User :=
  match db.sessions.find? (fun p => p.fst == sid) with
  | some p =>
      match db.accounts.find? (fun a => a.id == p.snd) with
      | some a => some ⟨a.id, a.username⟩
      | none => none
  | none => none

/-- The outcome of one connection attempt: the events written to the
transport, the close code if the transport was closed, the final
protocol state, and the hub after (de)registration. -/
structure ConnOutcome where
  sent : List Event
  closeCode : Option Nat
  finalState : ConnState
  hub : Hub

/-- Modelled from the spec: the hello event - `me` is the authenticated
user, `rooms` reproduces the Room Registry in insertion order, each
with `recent(roomId, pageSize)`. -/
def helloEvent (store : Store) (u : User) (pageSize : Nat) : Event :=
  .hello u (roomRegistry.map fun r =>
    let page := store.recent r.fst pageSize
    ⟨r.fst, r.snd, page.messages, page.hasMoreMessages⟩)

/-- Modelled from the spec: the connect sequence of the Protocol State
Machine - authenticate with the caller-supplied session credential; on
failure close the transport with code 1008 sending nothing; on success
send the hello event as the first event, register the session with the
Broadcast Hub for every Room Registry entry, and enter ACTIVE. -/
def acceptConnection (db : AuthDb) (store : Store) (hub : Hub)
    (sid : String) (pageSize : Nat) : ConnOutcome :=
  match authenticate db sid with
  | none =>
      { sent := [], closeCode := some 1008, finalState := .closed, hub := hub }
  | some u =>
      { sent := [helloEvent store u pageSize], closeCode := none,
        finalState := .active,
        hub := ⟨hub.sessions ++ [⟨sid, u, roomRegistry.map Prod.fst, []⟩]⟩ }

/-! ## HTTP auth/account layer -/

/-- Error codes, embedded from `api_types.py` `class ErrorId`. -/
inductive ErrorId where
  | badRequest
  | loginFailed
  | usernameExists
  | emailExists
deriving DecidableEq, Repr

/-- A structured error body `{id, message}`, embedded from
`api_types.py` `class APIErrorResponse`. -/
structure ApiError where
  id : ErrorId
  message : String
deriving DecidableEq, Repr

/-- An HTTP response of the auth/account layer: status, optional
structured error body, optional `sid` cookie. -/
structure HttpResponse where
  status : Nat
  error : Option ApiError
  cookieSid : Option String
deriving DecidableEq, Repr

/-- Extract a JSON string. -/
def Json.asString : Json → Option String
  | .str s => some s
  | _ => none

/-- Modelled from the spec: structural validation of an email field
(present, a string, non-empty, bounded length, contains an `@`), per
the `test_bad_request` cases. -/
def validEmail (e : String) : Bool :=
  0 < e.length && e.length ≤ 100 && e.toList.contains '@'

/-- Modelled from the spec: structural validation of a password field
(present, a string, bounded length), per the `test_bad_request` cases
(`short` is rejected, `Useruser10!` accepted, 200 chars rejected). -/
def validPassword (p : String) : Bool :=
  6 ≤ p.length && p.length ≤ 100

/-- Modelled from the spec: structural validation of a username field,
per the `test_bad_request` cases (`a` rejected, 200 chars rejected). -/
def validUsername (u : String) : Bool :=
  2 ≤ u.length && u.length ≤ 100

/-- Modelled from the spec: structural validation of a login request
body `{email, password}`; `none` means the body is structurally
invalid (missing field, wrong type, or failing field validation). -/
def validateLogin (body : Json) : Option (String × String) :=
  match (body.field "email").bind Json.asString,
        (body.field "password").bind Json.asString with
  | some e, some p =>
      if validEmail e && validPassword p then some (e, p) else none
  | _, _ => none

/-- Modelled from the spec: structural validation of a create-account
request body `{username, email, password}`. -/
def validateCreateAccount (body : Json) : Option (String × String × String) :=
  match (body.field "username").bind Json.asString,
        (body.field "email").bind Json.asString,
        (body.field "password").bind Json.asString with
  | some u, some e, some p =>
      if validUsername u && validEmail e && validPassword p then
        some (u, e, p)
      else none
  | _, _, _ => none

/-- A 400 response carrying a structured error body. -/
def errorResponse (eid : ErrorId) (msg : String) : HttpResponse :=
  { status := 400, error := some ⟨eid, msg⟩, cookieSid := none }

/-- Modelled from the spec: `POST /api/login` - structurally invalid
bodies are rejected with `BAD_REQUEST`; an unknown email or a wrong
password yields `LOGIN_FAILED`; on success a fresh session is minted
and returned as the `sid` cookie of a 204 response with no body. -/
def login (db : AuthDb) (body : Json) : AuthDb × HttpResponse :=
  match validateLogin body with
  | none => (db, errorResponse .badRequest "invalid request body")
  | some q =>
      match db.accounts.find? (fun a => a.email == q.fst) with
      | none => (db, errorResponse .loginFailed "login failed")
      | some a =>
          if a.password == q.snd then
            let sid := mintSid db.nextSidIdx
            ({ db with sessions := db.sessions ++ [(sid, a.id)],
                       nextSidIdx := db.nextSidIdx + 1 },
             { status := 204, error := none, cookieSid := some sid })
          else (db, errorResponse .loginFailed "login failed")

/-- Modelled from the spec: `POST /api/create-account` - structurally
invalid bodies are rejected with `BAD_REQUEST`; a taken username yields
`USERNAME_EXISTS`; a taken email yields `EMAIL_EXISTS`; on success the
account is created and a fresh session is minted. -/
def createAccount (db : AuthDb) (body : Json) : AuthDb × HttpResponse :=
  match validateCreateAccount body with
  | none => (db, errorResponse .badRequest "invalid request body")
  | some q =>
      if db.accounts.any (fun a => a.username == q.fst) then
        (db, errorResponse .usernameExists "username already in use")
      else if db.accounts.any (fun a => a.email == q.snd.fst) then
        (db, errorResponse .emailExists "email already in use")
      else
        let aid : Int := Int.ofNat db.accounts.length
        let sid := mintSid db.nextSidIdx
        ({ accounts := db.accounts ++ [⟨aid, q.fst, q.snd.fst, q.snd.snd⟩],
           sessions := db.sessions ++ [(sid, aid)],
           nextSidIdx := db.nextSidIdx + 1 },
         { status := 204, error := none, cookieSid := some sid })

/-! ## Accessors and auxiliary predicates used by the theorems -/

/-- The `(id, name)` pairs of a hello event's room list (empty for a
non-hello event). -/
def Event.roomList : Event → List (String × String)
  | .hello _ rooms => rooms.map fun r => (r.id, r.name)
  | .serverMessages _ _ => []

/-- The `me` field of a hello event. -/
def Event.meOf : Event → Option User
  | .hello me _ => some me
  | .serverMessages _ _ => none

/-- All session identifiers recorded in the auth layer were minted by
`mintSid` with an index below the current counter. -/
def sidsWellFormed (db : AuthDb) : Prop :=
  ∀ p ∈ db.sessions, ∃ k, k < db.nextSidIdx ∧ p.fst = mintSid k

theorem mintSid_length (k : Nat) : (mintSid k).length = k + 1 := by
  simp [mintSid, String.length]

theorem mintSid_ne_empty (k : Nat) : mintSid k ≠ "" := by
  intro h
  have := mintSid_length k
  rw [h] at this
  simp [String.length] at this

theorem mintSid_inj {k₁ k₂ : Nat} (h : mintSid k₁ = mintSid k₂) : k₁ = k₂ := by
  have := congrArg String.length h
  rw [mintSid_length, mintSid_length] at this
  omega

/-- `publish` appends the batch event to the queue of any subscribed
session, leaving its identity untouched. -/
theorem publish_delivers (h : Hub) (roomId : String) (msgs : List Message)
    (s : Session) (hs : s ∈ h.sessions) (hsub : roomId ∈ s.subs) :
    ∃ s', s' ∈ (h.publish roomId msgs).sessions ∧ s'.sid = s.sid ∧
      s'.user = s.user ∧
      s'.queue = s.queue ++ [Event.serverMessages roomId msgs] := by
  refine ⟨_, List.mem_map_of_mem _ hs, ?_⟩
  rw [if_pos hsub]
  exact ⟨rfl, rfl, rfl⟩

/-- `appendBatch` stamps every submitted content, in order, with the
originating author and the current wall-clock instant. -/
theorem appendBatch_spec (now : Nat) (roomId : String) (author : User) :
    ∀ (cs : List String) (s : Store),
      (appendBatch s now roomId author cs).snd.map Message.content = cs ∧
      ∀ m ∈ (appendBatch s now roomId author cs).snd,
        m.author = author ∧ m.id.epochMs = now ∧ m.timestamp = now := by
  intro cs
  induction cs with
  | nil => intro s; exact ⟨rfl, by intro m hm; cases hm⟩
  | cons c cs ih =>
      intro s
      have h := ih (s.append now roomId author c).fst
      constructor
      · exact congrArg (List.cons c) h.1
      · intro m hm
        simp only [appendBatch, List.mem_cons] at hm
        rcases hm with hm | hm
        · subst hm
          exact ⟨rfl, rfl, rfl⟩
        · exact h.2 m hm

/-! ## The claims -/

/-- C1: for every room, the composite IDs of messages returned by
successive `append` calls to the Message Log Store are strictly
increasing under the order comparing `epoch_ms` then `sequence`,
provided the wall clock does not run backwards between the two calls
(`now1 ≤ now2`); in particular the second of two messages sent in
sequence to the same room gets the greater ID. -/
theorem C1_append_ids_strictly_increasing (s : Store) (roomId : String)
    (a1 a2 : User) (c1 c2 : String) (now1 now2 : Nat) (hclock : now1 ≤ now2) :
    ((s.append now1 roomId a1 c1).snd.id).Lt
      ((s.append now1 roomId a1 c1).fst.append now2 roomId a2 c2).snd.id :=
  append_id_lt s roomId a1 a2 c1 c2 now1 now2 hclock

/-- Witness for C1 at a concrete store and clock: two appends to room
`wasm` in the same millisecond. -/
theorem C1_append_ids_strictly_increasing_witness :
    (5 ≤ 5) ∧
      ((Store.empty.append 5 "wasm" ⟨1, "alice"⟩ "hi").snd.id).Lt
        ((Store.empty.append 5 "wasm" ⟨1, "alice"⟩ "hi").fst.append 5 "wasm"
          ⟨1, "alice"⟩ "again").snd.id :=
  ⟨by decide,
   C1_append_ids_strictly_increasing Store.empty "wasm" ⟨1, "alice"⟩
     ⟨1, "alice"⟩ "hi" "again" 5 5 (by decide)⟩

/-- C2: for every room and limit, `recent` returns at most `limit`
messages, in strictly descending composite-ID order, with
`hasMoreMessages` true iff the room's log holds more than `limit`
messages; and on a fresh store every room's history is empty with
`hasMoreMessages` false. -/
theorem C2_recent_page (s : Store) (roomId : String) (limit : Nat)
    (hsorted : SortedLog (s.log roomId)) :
    ((s.recent roomId limit).messages.length ≤ limit ∧
      (s.recent roomId limit).messages.Pairwise (fun a b => b.id.Lt a.id) ∧
      ((s.recent roomId limit).hasMoreMessages = true ↔
        limit < (s.log roomId).length)) ∧
    ∀ r n, Store.empty.recent r n = ⟨[], false⟩ := by
  refine ⟨⟨?_, ?_, ?_⟩, ?_⟩
  · exact List.length_take_le limit (s.log roomId).reverse
  · have hrev : (s.log roomId).reverse.Pairwise (fun a b => b.id.Lt a.id) :=
      List.pairwise_reverse.mpr hsorted
    exact List.Pairwise.sublist (List.take_sublist limit _) hrev
  · simp [Store.recent]
  · intro r n
    simp [Store.recent, Store.empty, Store.log]

/-- Witness for C2 at a concrete two-message store with limit 1. -/
theorem C2_recent_page_witness :
    SortedLog
        ((((Store.empty.append 5 "wasm" ⟨1, "alice"⟩ "a").fst.append 6 "wasm"
          ⟨1, "alice"⟩ "b").fst).log "wasm") ∧
      ((((Store.empty.append 5 "wasm" ⟨1, "alice"⟩ "a").fst.append 6 "wasm"
          ⟨1, "alice"⟩ "b").fst.recent "wasm" 1).messages.length ≤ 1 ∧
        (((Store.empty.append 5 "wasm" ⟨1, "alice"⟩ "a").fst.append 6 "wasm"
          ⟨1, "alice"⟩ "b").fst.recent "wasm" 1).messages.Pairwise
            (fun a b => b.id.Lt a.id) ∧
        ((((Store.empty.append 5 "wasm" ⟨1, "alice"⟩ "a").fst.append 6 "wasm"
          ⟨1, "alice"⟩ "b").fst.recent "wasm" 1).hasMoreMessages = true ↔
          1 < ((((Store.empty.append 5 "wasm" ⟨1, "alice"⟩ "a").fst.append 6
            "wasm" ⟨1, "alice"⟩ "b").fst).log "wasm").length)) ∧
      ∀ r n, Store.empty.recent r n = ⟨[], false⟩ :=
  ⟨by decide,
   C2_recent_page _ "wasm" 1 (by decide)⟩

/-- C3: handling an inbound batch appends every item and publishes one
`serverMessages` event for the room; every session currently subscribed
to that room - the originating session not excluded, since `publish`
delivers to all subscribers uniformly - receives that one identical
event (hence an identical serialized payload), and the messages in it
carry the server-assigned ID and timestamp together with the submitted
contents and the sender's authenticated identity. -/
theorem C3_publish_fanout (store : Store) (hub : Hub) (now : Nat)
    (author : User) (roomId : String) (contents : List String) :
    (∀ s ∈ hub.sessions, roomId ∈ s.subs →
      ∃ s', s' ∈ (handleClientMessages store hub now author roomId
            contents).snd.fst.sessions ∧
        s'.sid = s.sid ∧ s'.user = s.user ∧
        s'.queue = s.queue ++ [Event.serverMessages roomId
          (handleClientMessages store hub now author roomId contents).snd.snd]) ∧
    (handleClientMessages store hub now author roomId contents).snd.snd.map
        Message.content = contents ∧
    ∀ m ∈ (handleClientMessages store hub now author roomId contents).snd.snd,
      m.author = author ∧ m.id.epochMs = now ∧ m.timestamp = now := by
  have hb := appendBatch_spec now roomId author contents store
  refine ⟨?_, hb.1, hb.2⟩
  intro s hs hsub
  exact publish_delivers hub roomId _ s hs hsub

/-- Witness for C3: one subscribed session receives the published batch. -/
theorem C3_publish_fanout_witness :
    (⟨"sid1", ⟨1, "alice"⟩, ["wasm"], []⟩ : Session) ∈
        (Hub.mk [⟨"sid1", ⟨1, "alice"⟩, ["wasm"], []⟩]).sessions ∧
      "wasm" ∈ (⟨"sid1", ⟨1, "alice"⟩, ["wasm"], []⟩ : Session).subs ∧
      ∃ s', s' ∈ (handleClientMessages Store.empty
            (Hub.mk [⟨"sid1", ⟨1, "alice"⟩, ["wasm"], []⟩]) 5 ⟨1, "alice"⟩
            "wasm" ["hi"]).snd.fst.sessions ∧
        s'.sid = "sid1" ∧ s'.user = ⟨1, "alice"⟩ ∧
        s'.queue = [] ++ [Event.serverMessages "wasm"
          (handleClientMessages Store.empty
            (Hub.mk [⟨"sid1", ⟨1, "alice"⟩, ["wasm"], []⟩]) 5 ⟨1, "alice"⟩
            "wasm" ["hi"]).snd.snd] :=
  ⟨by decide, by decide,
   (C3_publish_fanout Store.empty (Hub.mk [⟨"sid1", ⟨1, "alice"⟩, ["wasm"], []⟩])
      5 ⟨1, "alice"⟩ "wasm" ["hi"]).1 ⟨"sid1", ⟨1, "alice"⟩, ["wasm"], []⟩
     (by decide) (by decide)⟩

/-- C4: on a successfully authenticated connection the transport
receives exactly one event, the hello event, and its rooms list
reproduces the Room Registry verbatim in insertion order: beast, async,
db, wasm with their display names. -/
theorem C4_hello_rooms (db : AuthDb) (store : Store) (hub : Hub)
    (sid : String) (pageSize : Nat) (u : User)
    (hauth : authenticate db sid = some u) :
    (acceptConnection db store hub sid pageSize).sent =
        [helloEvent store u pageSize] ∧
      (helloEvent store u pageSize).roomList =
        [("beast", "Boost.Beast"), ("async", "Boost.Async"),
         ("db", "Database connectors"), ("wasm", "Web assembly")] := by
  constructor
  · simp [acceptConnection, hauth]
  · simp [helloEvent, Event.roomList, roomRegistry]

/-- Witness for C4 at a concrete auth database. -/
theorem C4_hello_rooms_witness :
    authenticate ⟨[⟨1, "alice", "a@test.com", "pw"⟩], [("s1", 1)], 1⟩ "s1" =
        some ⟨1, "alice"⟩ ∧
      (acceptConnection ⟨[⟨1, "alice", "a@test.com", "pw"⟩], [("s1", 1)], 1⟩
          Store.empty ⟨[]⟩ "s1" 10).sent =
        [helloEvent Store.empty ⟨1, "alice"⟩ 10] ∧
      (helloEvent Store.empty ⟨1, "alice"⟩ 10).roomList =
        [("beast", "Boost.Beast"), ("async", "Boost.Async"),
         ("db", "Database connectors"), ("wasm", "Web assembly")] :=
  ⟨by decide,
   (C4_hello_rooms ⟨[⟨1, "alice", "a@test.com", "pw"⟩], [("s1", 1)], 1⟩
      Store.empty ⟨[]⟩ "s1" 10 ⟨1, "alice"⟩ (by decide)).1,
   (C4_hello_rooms ⟨[⟨1, "alice", "a@test.com", "pw"⟩], [("s1", 1)], 1⟩
      Store.empty ⟨[]⟩ "s1" 10 ⟨1, "alice"⟩ (by decide)).2⟩

/-- C5: a connection whose session credential fails authentication is
closed with code 1008, no payload is sent (so no hello event), the
state goes to CLOSED (never ACTIVE), and the hub is untouched. -/
theorem C5_auth_failure (db : AuthDb) (store : Store) (hub : Hub)
    (sid : String) (pageSize : Nat)
    (hauth : authenticate db sid = none) :
    (acceptConnection db store hub sid pageSize).sent = [] ∧
      (acceptConnection db store hub sid pageSize).closeCode = some 1008 ∧
      (acceptConnection db store hub sid pageSize).finalState =
        ConnState.closed ∧
      (acceptConnection db store hub sid pageSize).hub = hub := by
  simp [acceptConnection, hauth]

/-- Witness for C5: an unknown session id against an empty database. -/
theorem C5_auth_failure_witness :
    authenticate ⟨[], [], 0⟩ "bad_session_id" = none ∧
      (acceptConnection ⟨[], [], 0⟩ Store.empty ⟨[]⟩ "bad_session_id" 10).sent
          = [] ∧
      (acceptConnection ⟨[], [], 0⟩ Store.empty ⟨[]⟩ "bad_session_id"
          10).closeCode = some 1008 ∧
      (acceptConnection ⟨[], [], 0⟩ Store.empty ⟨[]⟩ "bad_session_id"
          10).finalState = ConnState.closed ∧
      (acceptConnection ⟨[], [], 0⟩ Store.empty ⟨[]⟩ "bad_session_id" 10).hub
          = ⟨[]⟩ :=
  ⟨by decide,
   (C5_auth_failure ⟨[], [], 0⟩ Store.empty ⟨[]⟩ "bad_session_id" 10
      (by decide)).1,
   (C5_auth_failure ⟨[], [], 0⟩ Store.empty ⟨[]⟩ "bad_session_id" 10
      (by decide)).2⟩

/-- C6: a message appended via `append` is the newest entry returned by
`recent`, and it is delivered unchanged via `publish` to every
subscriber; the fetched copy and the delivered copy serialize to the
same bytes (same id, timestamp, content and user). -/
theorem C6_roundtrip (store : Store) (hub : Hub) (now : Nat) (author : User)
    (roomId content : String) (limit : Nat) (s : Session)
    (hlim : 1 ≤ limit) (hs : s ∈ hub.sessions) (hsub : roomId ∈ s.subs) :
    ((store.append now roomId author content).fst.recent roomId
        limit).messages.head? = some (store.append now roomId author content).snd ∧
      (∃ s', s' ∈ (hub.publish roomId
            [(store.append now roomId author content).snd]).sessions ∧
        s'.sid = s.sid ∧ s'.user = s.user ∧
        s'.queue = s.queue ++ [Event.serverMessages roomId
          [(store.append now roomId author content).snd]]) ∧
      ∀ m, ((store.append now roomId author content).fst.recent roomId
            limit).messages.head? = some m →
        m.toJson.render = (store.append now roomId author content).snd.toJson.render := by
  have hhead : ((store.append now roomId author content).fst.recent roomId
      limit).messages.head? = some (store.append now roomId author content).snd := by
    obtain ⟨k, rfl⟩ : ∃ k, limit = k + 1 :=
      ⟨limit - 1, by omega⟩
    show (((store.append now roomId author content).fst.log
        roomId).reverse.take (k + 1)).head? = _
    rw [append_fst_log, List.reverse_append]
    simp [List.take_succ_cons]
  refine ⟨hhead, publish_delivers hub roomId _ s hs hsub, ?_⟩
  intro m hm
  rw [hhead] at hm
  cases hm
  rfl

/-- Witness for C6 at a concrete store, hub and limit. -/
theorem C6_roundtrip_witness :
    (1 ≤ 1) ∧
      (⟨"sid1", ⟨1, "alice"⟩, ["wasm"], []⟩ : Session) ∈
        (Hub.mk [⟨"sid1", ⟨1, "alice"⟩, ["wasm"], []⟩]).sessions ∧
      "wasm" ∈ (⟨"sid1", ⟨1, "alice"⟩, ["wasm"], []⟩ : Session).subs ∧
      ((Store.empty.append 5 "wasm" ⟨1, "alice"⟩ "hi").fst.recent "wasm"
          1).messages.head? = some (Store.empty.append 5 "wasm" ⟨1, "alice"⟩
          "hi").snd :=
  ⟨by decide, by decide, by decide,
   (C6_roundtrip Store.empty (Hub.mk [⟨"sid1", ⟨1, "alice"⟩, ["wasm"], []⟩]) 5
      ⟨1, "alice"⟩ "wasm" "hi" 1 ⟨"sid1", ⟨1, "alice"⟩, ["wasm"], []⟩
      (by decide) (by decide) (by decide)).1⟩

/-- C8: the hello event of a successfully authenticated connection
carries a `me` field holding the connection's authenticated user, whose
username (and id) are those of the account the session was opened
for. -/
theorem C8_hello_me (db : AuthDb) (store : Store) (hub : Hub) (sid : String)
    (pageSize : Nat) (u : User) (hauth : authenticate db sid = some u) :
    (acceptConnection db store hub sid pageSize).sent.head? =
        some (helloEvent store u pageSize) ∧
      (helloEvent store u pageSize).meOf = some u ∧
      ∃ p, p ∈ db.sessions ∧ p.fst = sid ∧
        ∃ a, a ∈ db.accounts ∧ a.id = p.snd ∧
          u.username = a.username ∧ u.id = a.id := by
  refine ⟨by simp [acceptConnection, hauth], rfl, ?_⟩
  unfold authenticate at hauth
  split at hauth
  next p hfind =>
    split at hauth
    next a hacc =>
      cases hauth
      have h1 := List.find?_some hfind
      have h2 := List.find?_some hacc
      exact ⟨p, List.mem_of_find?_eq_some hfind, eq_of_beq h1, a,
        List.mem_of_find?_eq_some hacc, eq_of_beq h2, rfl, rfl⟩
    next hacc => exact Option.noConfusion hauth
  next hfind => exact Option.noConfusion hauth

/-- Witness for C8 at a concrete auth database. -/
theorem C8_hello_me_witness :
    authenticate ⟨[⟨1, "alice", "a@test.com", "pw"⟩], [("s1", 1)], 1⟩ "s1" =
        some ⟨1, "alice"⟩ ∧
      (acceptConnection ⟨[⟨1, "alice", "a@test.com", "pw"⟩], [("s1", 1)], 1⟩
          Store.empty ⟨[]⟩ "s1" 10).sent.head? =
        some (helloEvent Store.empty ⟨1, "alice"⟩ 10) ∧
      (helloEvent Store.empty ⟨1, "alice"⟩ 10).meOf = some ⟨1, "alice"⟩ :=
  ⟨by decide,
   (C8_hello_me ⟨[⟨1, "alice", "a@test.com", "pw"⟩], [("s1", 1)], 1⟩
      Store.empty ⟨[]⟩ "s1" 10 ⟨1, "alice"⟩ (by decide)).1,
   (C8_hello_me ⟨[⟨1, "alice", "a@test.com", "pw"⟩], [("s1", 1)], 1⟩
      Store.empty ⟨[]⟩ "s1" 10 ⟨1, "alice"⟩ (by decide)).2.1⟩

/-- C7 (counterexample): in the serialized hello event the `me` user's
`id` field is not a JSON string - at this concrete connection it is the
JSON number 1, matching the declared type `id: int` of `class User` in
`api_types.py`, against the claim's `id: string`. -/
theorem C7_user_id_string_counterexample :
    ¬ ∃ s : String,
        (((helloEvent Store.empty ⟨1, "alice"⟩ 10).toJson.field
            "payload").bind (fun p => p.field "me")).bind
          (fun m => m.field "id") = some (Json.str s) := by
  intro h
  obtain ⟨s, h⟩ := h
  have h0 : (((helloEvent Store.empty ⟨1, "alice"⟩ 10).toJson.field
      "payload").bind (fun p => p.field "me")).bind
        (fun m => m.field "id") = some (Json.num 1) := rfl
  rw [h0] at h
  injection h with h
  exact Json.noConfusion h

/-- C7 (amended): the User value carried in hello and serverMessages
events has the shape `{id: integer, username: string}` - the `id`
field serializes as a JSON number, the `username` field as a JSON
string; the hello payload's `me` is exactly the serialized connection
user, and each serialized message carries its author under `user`. -/
theorem C7_user_id_is_integer (u : User) (store : Store) (pageSize : Nat)
    (m : Message) :
    (User.toJson u).field "id" = some (Json.num u.id) ∧
      (User.toJson u).field "username" = some (Json.str u.username) ∧
      ((helloEvent store u pageSize).toJson.field "payload").bind
        (fun p => p.field "me") = some u.toJson ∧
      (Message.toJson m).field "user" = some m.author.toJson :=
  ⟨rfl, rfl, rfl, rfl⟩

/-- C9: failing requests to the auth/account layer yield a 400 status
with a structured `{id, message}` body: structurally invalid bodies
give BAD_REQUEST, a taken username USERNAME_EXISTS, a taken email
EMAIL_EXISTS, an unknown email or a wrong password LOGIN_FAILED; and
every login/create-account response is either a 204 success or such a
structured 400 error. -/
theorem C9_error_taxonomy :
    (∀ db body, validateLogin body = none →
      (login db body).snd = errorResponse .badRequest "invalid request body") ∧
    (∀ db body, validateCreateAccount body = none →
      (createAccount db body).snd =
        errorResponse .badRequest "invalid request body") ∧
    (∀ db body q, validateCreateAccount body = some q →
      db.accounts.any (fun a => a.username == q.fst) = true →
      (createAccount db body).snd =
        errorResponse .usernameExists "username already in use") ∧
    (∀ db body q, validateCreateAccount body = some q →
      db.accounts.any (fun a => a.username == q.fst) = false →
      db.accounts.any (fun a => a.email == q.snd.fst) = true →
      (createAccount db body).snd =
        errorResponse .emailExists "email already in use") ∧
    (∀ db body q, validateLogin body = some q →
      db.accounts.find? (fun a => a.email == q.fst) = none →
      (login db body).snd = errorResponse .loginFailed "login failed") ∧
    (∀ db body q a, validateLogin body = some q →
      db.accounts.find? (fun a => a.email == q.fst) = some a →
      (a.password == q.snd) = false →
      (login db body).snd = errorResponse .loginFailed "login failed") ∧
    (∀ db body, (login db body).snd.status = 204 ∨
      ((login db body).snd.status = 400 ∧
        ∃ e, (login db body).snd.error = some e)) ∧
    (∀ db body, (createAccount db body).snd.status = 204 ∨
      ((createAccount db body).snd.status = 400 ∧
        ∃ e, (createAccount db body).snd.error = some e)) := by
  refine ⟨?_, ?_, ?_, ?_, ?_, ?_, ?_, ?_⟩
  · intro db body h
    simp [login, h]
  · intro db body h
    simp [createAccount, h]
  · intro db body q h1 h2
    simp [createAccount, h1, h2]
  · intro db body q h1 h2 h3
    simp [createAccount, h1, h2, h3]
  · intro db body q h1 h2
    simp [login, h1, h2]
  · intro db body q a h1 h2 h3
    simp [login, h1, h2, h3]
  · intro db body
    unfold login
    split
    · right
      exact ⟨rfl, ⟨.badRequest, "invalid request body"⟩, rfl⟩
    · split
      · right
        exact ⟨rfl, ⟨.loginFailed, "login failed"⟩, rfl⟩
      · split
        · left
          rfl
        · right
          exact ⟨rfl, ⟨.loginFailed, "login failed"⟩, rfl⟩
  · intro db body
    unfold createAccount
    split
    · right
      exact ⟨rfl, ⟨.badRequest, "invalid request body"⟩, rfl⟩
    · split
      · right
        exact ⟨rfl, ⟨.usernameExists, "username already in use"⟩, rfl⟩
      · split
        · right
          exact ⟨rfl, ⟨.emailExists, "email already in use"⟩, rfl⟩
        · left
          rfl

/-- Witness for C9: the empty object is a structurally invalid login
body and is rejected with a structured BAD_REQUEST error. -/
theorem C9_error_taxonomy_witness :
    validateLogin (Json.obj []) = none ∧
      (login ⟨[], [], 0⟩ (Json.obj [])).snd =
        errorResponse .badRequest "invalid request body" :=
  ⟨rfl, C9_error_taxonomy.1 ⟨[], [], 0⟩ (Json.obj []) rfl⟩

/-- C10: a successful login returns 204 with no body and sets a
non-empty `sid` cookie distinct from every previously issued session
identifier. -/
theorem C10_login_fresh_session (db : AuthDb) (body : Json)
    (q : String × String) (a : Account)
    (hval : validateLogin body = some q)
    (hfind : db.accounts.find? (fun x => x.email == q.fst) = some a)
    (hpw : (a.password == q.snd) = true)
    (hwf : sidsWellFormed db) :
    (login db body).snd.status = 204 ∧
      (login db body).snd.error = none ∧
      ∃ sid, (login db body).snd.cookieSid = some sid ∧ sid ≠ "" ∧
        ∀ p ∈ db.sessions, p.fst ≠ sid := by
  have hlogin : (login db body).snd =
      { status := 204, error := none,
        cookieSid := some (mintSid db.nextSidIdx) } := by
    simp [login, hval, hfind, hpw]
  refine ⟨by rw [hlogin], by rw [hlogin],
    mintSid db.nextSidIdx, by rw [hlogin], mintSid_ne_empty _, ?_⟩
  intro p hp heq
  obtain ⟨k, hk, hpk⟩ := hwf p hp
  rw [heq] at hpk
  exact absurd (mintSid_inj hpk) (by omega)

/-- A concrete valid login body for the C10 witness. -/
def sampleLoginBody : Json :=
  .obj [("email", .str "a@test.com"), ("password", .str "Useruser10!")]

/-- A concrete one-account auth database for the C10 witness. -/
def sampleAuthDb : AuthDb :=
  ⟨[⟨1, "alice", "a@test.com", "Useruser10!"⟩], [], 0⟩

/-- Witness for C10 at a concrete database and valid credentials. -/
theorem C10_login_fresh_session_witness :
    validateLogin sampleLoginBody = some ("a@test.com", "Useruser10!") ∧
      (login sampleAuthDb sampleLoginBody).snd.status = 204 ∧
      (login sampleAuthDb sampleLoginBody).snd.error = none ∧
      ∃ sid, (login sampleAuthDb sampleLoginBody).snd.cookieSid = some sid ∧
        sid ≠ "" ∧ ∀ p ∈ sampleAuthDb.sessions, p.fst ≠ sid :=
  ⟨rfl,
   C10_login_fresh_session sampleAuthDb sampleLoginBody
     ("a@test.com", "Useruser10!") ⟨1, "alice", "a@test.com", "Useruser10!"⟩
     rfl rfl rfl (by intro p hp; cases hp)⟩

end Chat
